import Mathlib

/-!
Verification development for the TechShiny website question-answering
assistant (`src/app.py`).  The Python source is shallowly embedded below:
pure string processing becomes Lean functions on `String` / `List Char`,
the network and the hosted providers become explicit environment records
whose fallible operations return `Except`, and Python exceptions become an
explicit exception type threaded through the query pipeline.
-/

/-! ## Character classes of the regular expressions in `app.py`

The source uses three regular expressions:
the email pattern from line 91, the phone pattern from line 92 and the
keyword tokenizer from line 259.  Their character classes are embedded as
executable predicates.  ASCII readings of the classes are used throughout.
-/

/-- Character class of the local part of the email regex: the set
written as a-z, A-Z, 0-9 and the symbols dot, underscore, percent,
plus, hyphen. -/
def emailLocalChar (c : Char) : Bool :=
  c.isAlpha || c.isDigit || c = '.' || c = '_' || c = '%' || c = '+' || c = '-'

/-- Character class of the domain part of the email regex: letters,
digits, dot and hyphen. -/
def emailDomainChar (c : Char) : Bool :=
  c.isAlpha || c.isDigit || c = '.' || c = '-'

/-- Character class of the top-level-domain part of the email regex:
letters only. -/
def emailTldChar (c : Char) : Bool :=
  c.isAlpha

/-- Character class of the body of the phone regex: digits, space, hyphen. -/
def phoneBodyChar (c : Char) : Bool :=
  c.isDigit || c = ' ' || c = '-'

/-- Word character of the tokenizer regex, restricted to ASCII: letters,
digits, underscore.  On ASCII characters this coincides exactly with the
full word-character class of the source; non-ASCII word characters are
outside the embedding, so theorems that constrain a raw input through
this class restrict that input to ASCII. -/
def wordChar (c : Char) : Bool :=
  c.isAlpha || c.isDigit || c = '_'

/-- Length of the maximal run of characters satisfying `p` at the head of
the list; models the greedy consumption of a character class. -/
def runLen (p : Char → Bool) (s : List Char) : Nat :=
  (s.takeWhile p).length

/-! ## The two contact-info regex matchers

`matchEmailAt s i` models attempting the email pattern of line 91 at
position `i` of `s`, returning the end position of the match.  The
pattern is: one or more local characters, an at sign, one or more domain
characters, a literal dot, two or more letters.  Backtracking of the
greedy domain group is resolved explicitly: the at sign is not a local
character so the local group is exactly its maximal run, while the dot is
a domain character, so the dot of the pattern must sit strictly inside
the maximal domain run and the longest viable domain group wins.
-/

/-- Backtracking over the length of the domain group: try length
`m + 1`, requiring a dot right after it followed by at least two
letters; on failure retry with a shorter group, as the greedy engine
does. -/
def emailDomainSplit (s : List Char) (j : Nat) : Nat → Option Nat
  | 0 => none
  | m + 1 =>
    if s.get? (j + (m + 1)) = some '.' then
      let tld := runLen emailTldChar (s.drop (j + (m + 1) + 1))
      if 2 ≤ tld then some (j + (m + 1) + 1 + tld)
      else emailDomainSplit s j m
    else emailDomainSplit s j m

/-- Attempt the email pattern at position `i`; `some e` is the end
position of the (greedy) match. -/
def matchEmailAt (s : List Char) (i : Nat) : Option Nat :=
  let aRun := runLen emailLocalChar (s.drop i)
  if aRun = 0 then none
  else if s.get? (i + aRun) = some '@' then
    let j := i + aRun + 1
    let bRun := runLen emailDomainChar (s.drop j)
    if bRun = 0 then none else emailDomainSplit s j (bRun - 1)
  else none

/-- Backtracking over the length of the repeated body group of the phone
pattern: the group must have length at least 8 and be followed by a
final digit; the greedy engine takes the longest viable length. -/
def phoneSplit (s : List Char) (q : Nat) : Nat → Option Nat
  | 0 => none
  | k + 1 =>
    if 8 ≤ k + 1 then
      match s.get? (q + (k + 1)) with
      | some c => if c.isDigit then some (q + (k + 1) + 1) else phoneSplit s q k
      | none => phoneSplit s q k
    else none

/-- The phone pattern without the optional leading plus: a digit, then
at least eight body characters, then a digit. -/
def matchPhoneCore (s : List Char) (p : Nat) : Option Nat :=
  match s.get? p with
  | some c =>
    if c.isDigit then phoneSplit s (p + 1) (runLen phoneBodyChar (s.drop (p + 1)))
    else none
  | none => none

/-- Attempt the phone pattern of line 92 at position `i`.  The optional
plus is greedy; when the leading character is a plus the alternative of
matching it as the first digit is impossible, so no fallback is needed. -/
def matchPhoneAt (s : List Char) (i : Nat) : Option Nat :=
  if s.get? i = some '+' then matchPhoneCore s (i + 1)
  else matchPhoneCore s i

/-- The scan loop of `re.findall`: try a match at every position from
left to right, record non-overlapping matches and continue after each
match end.  `fuel` dominates the number of loop steps; both patterns
only ever produce non-empty matches, so position strictly increases. -/
def pyScan (matchAt : List Char → Nat → Option Nat) (s : List Char) :
    Nat → Nat → List (Nat × Nat)
  | _, 0 => []
  | i, fuel + 1 =>
    if i < s.length then
      match matchAt s i with
      | some e => (i, e) :: pyScan matchAt s (max e (i + 1)) fuel
      | none => pyScan matchAt s (i + 1) fuel
    else []

/-- `re.findall` for one of the two contact patterns: the list of matched
substrings, in scan order. -/
def pyFindall (matchAt : List Char → Nat → Option Nat) (t : String) : List String :=
  (pyScan matchAt t.data 0 (t.data.length + 1)).map
    (fun ie => String.mk ((t.data.drop ie.1).take (ie.2 - ie.1)))

/-- `re.findall` of the email pattern over a text (line 91). -/
def pyFindEmails (t : String) : List String :=
  pyFindall matchEmailAt t

/-- `re.findall` of the phone pattern over a text (line 92). -/
def pyFindPhones (t : String) : List String :=
  pyFindall matchPhoneAt t

/-! ## Python string builtins used by the source -/

/-- Python `str.lower` modelled characterwise over ASCII. -/
def pyLowerChar (c : Char) : Char :=
  if c.isUpper then Char.ofNat (c.toNat + 32) else c

/-- Python `str.lower` on strings. -/
def pyLower (s : String) : String :=
  String.mk (s.data.map pyLowerChar)

/-- Python `str.startswith`: characterwise prefix test. -/
def pyStartswith (s pre : String) : Bool :=
  pre.data.isPrefixOf s.data

/-- Python substring membership `sub in s`. -/
def pyInAux (sub : List Char) : List Char → Bool
  | [] => sub.isEmpty
  | c :: cs => sub.isPrefixOf (c :: cs) || pyInAux sub cs

/-- Python substring membership on strings. -/
def pyIn (sub s : String) : Bool :=
  pyInAux sub.data s.data

/-- Accumulator loop of the tokenizer: `acc` holds the reversed current
run of word characters. -/
def splitWordsAux : List Char → List Char → List String
  | [], acc => if acc.isEmpty then [] else [String.mk acc.reverse]
  | c :: cs, acc =>
    if wordChar c then splitWordsAux cs (c :: acc)
    else if acc.isEmpty then splitWordsAux cs []
    else String.mk acc.reverse :: splitWordsAux cs []

/-- `re.findall` of the word tokenizer pattern of line 259: the maximal
runs of word characters, in order. -/
def splitWords (l : List Char) : List String :=
  splitWordsAux l []

/-! ## The parsed page and the content extractor

`Soup` records exactly the observations `extract_content_from_soup`
(lines 35-112) makes of a parsed page: the stripped texts of headings,
paragraphs and list items, the anchors carrying an href, the tables, the
content attributes of description meta tags, the full visible text and
the alt attributes of the images.
-/

/-- An anchor tag carrying an href, as observed by the extractor:
its stripped text, the alt attributes of the images it contains
(`none` when an image has no alt attribute), whether it contains a
span or i element, and its href. -/
structure Anchor where
  text : String
  imgAlts : List (Option String)
  hasIcon : Bool
  href : String
deriving DecidableEq

/-- A table as observed by the extractor: the texts of its header cells
and, per row, the texts of all its cells. -/
structure TableData where
  headers : List String
  rows : List (List String)
deriving DecidableEq

/-- The observations the extractor makes of a parsed page. -/
structure Soup where
  headings : List String
  paragraphs : List String
  listItems : List String
  anchors : List Anchor
  tables : List TableData
  metaDescriptions : List String
  text : String
  imgAlts : List (Option String)
deriving DecidableEq

/-- The label chosen for an anchor (lines 50-64): its own text when
non-empty; else, when it contains images, the comma-joined alt texts
with a fixed placeholder for images lacking an alt attribute; else the
icon marker when it contains a span or i element; else empty. -/
def linkLabel (a : Anchor) : String :=
  if a.text ≠ "" then a.text
  else if a.imgAlts ≠ [] then
    String.intercalate ", " (a.imgAlts.map (fun alt => alt.getD "Image without alt text"))
  else if a.hasIcon then "Icon link"
  else ""

/-- The line emitted for one anchor (line 69); an empty label renders as
the fixed text slot filler. -/
def linkLine (a : Anchor) : String :=
  "Link text: " ++ (if linkLabel a = "" then "No text" else linkLabel a) ++
    ", URL: " ++ a.href

/-- The block emitted for the table at position `i` (lines 80-83). -/
def tableBlock (i : Nat) (t : TableData) : String :=
  "Table " ++ toString (i + 1) ++ ":\nHeaders: " ++
    String.intercalate ", " t.headers ++ "\nRows:\n" ++
    String.intercalate "\n" (t.rows.map (String.intercalate ", "))

/-- The image alt section entries (line 98): the alt attributes that are
present and non-empty, stripped. -/
def imageAltEntries (alts : List (Option String)) : List String :=
  alts.filterMap (fun alt =>
    match alt with
    | none => none
    | some a => if a = "" then none else some a.trim)

/-- `extract_content_from_soup` (lines 35-112): the eight labelled
sections concatenated into one string. -/
def extract_content_from_soup (soup : Soup) : String :=
  let heading_text := String.intercalate "\n" soup.headings
  let paragraph_text := String.intercalate "\n" soup.paragraphs
  let list_text := String.intercalate "\n" soup.listItems
  let link_text := String.intercalate "\n" (soup.anchors.map linkLine)
  let table_text := String.intercalate "\n"
    (soup.tables.enum.map (fun p => tableBlock p.1 p.2))
  let meta_text := String.intercalate "\n" soup.metaDescriptions
  let contact_info_text := String.intercalate "\n"
    (pyFindEmails soup.text ++ pyFindPhones soup.text)
  let image_alt_text := String.intercalate "\n" (imageAltEntries soup.imgAlts)
  "Headings:\n" ++ heading_text ++ "\n\n" ++
  "Paragraphs:\n" ++ paragraph_text ++ "\n\n" ++
  "Lists:\n" ++ list_text ++ "\n\n" ++
  "Links:\n" ++ link_text ++ "\n\n" ++
  "Tables:\n" ++ table_text ++ "\n\n" ++
  "Meta Descriptions:\n" ++ meta_text ++ "\n\n" ++
  "Contact Info:\n" ++ contact_info_text ++ "\n\n" ++
  "Image Alt Text:\n" ++ image_alt_text ++ "\n"

/-! ## The recursive crawler

`scrape_recursive` (lines 115-148) walks the link graph to a depth
bound.  The network is an explicit environment: `fetch` models
`requests.get` followed by `raise_for_status` and HTML parsing (an
`error` is a raised `requests.RequestException`), and `urljoin` models
`urllib.parse.urljoin`.  Besides the accumulated text the embedding
returns the list of URLs for which a fetch was attempted, in order, so
that statements about fetches performed are expressible.  Python set
iteration order is unspecified; the set of candidate links is modelled
in first-insertion order.
-/

/-- The message of a raised `requests.RequestException`. -/
abbrev ReqError := String

/-- The network environment of the crawler. -/
structure Web where
  fetch : String → Except ReqError Soup
  urljoin : String → String → String

/-- Deduplication keeping first occurrences, with an accumulator of
already seen elements. -/
def dedupAux (seen : List String) : List String → List String
  | [] => []
  | x :: xs => if x ∈ seen then dedupAux seen xs else x :: dedupAux (x :: seen) xs

/-- Deduplication keeping first occurrences; models collecting the
candidate links into a Python set. -/
def dedupFirst (l : List String) : List String :=
  dedupAux [] l

/-- The links a page contributes at depth greater than zero
(lines 132-137): each anchor href resolved against the current URL,
kept when the result starts with the string http and is not a
string-prefix continuation of the current URL, deduplicated. -/
def crawlLinks (web : Web) (url : String) (soup : Soup) : List String :=
  dedupFirst ((soup.anchors.map (fun a => web.urljoin url a.href)).filter
    (fun u => pyStartswith u "http" && !pyStartswith u url))

/-- Assembling a node result from the extracted text of the page and the
child results: each child text is appended preceded by the fixed
delimiter (line 141), and the fetch logs are concatenated after the
current URL. -/
def assembleNode (base url : String) (children : List (String × List String)) :
    String × List String :=
  (base ++ String.join (children.map (fun c => "\n\n---\n\n" ++ c.1)),
   url :: (children.map Prod.snd).flatten)

/-- The crawler on the shifted depth: argument `0` stands for depth
below zero, `n + 1` for depth `n`.  On a fetch failure the accumulated
text of the call, the empty string, is returned (lines 143-146); at
positive depth the candidate links are each crawled one level lower. -/
def scrapeNat (web : Web) : Nat → String → String × List String
  | 0, _ => ("", [])
  | n + 1, url =>
    match web.fetch url with
    | .error _ => ("", [url])
    | .ok soup =>
      let content := extract_content_from_soup soup
      if n = 0 then (content, [url])
      else assembleNode content url
        ((crawlLinks web url soup).map (fun l => scrapeNat web n l))

/-- `scrape_recursive` (lines 115-148) with its integer depth argument;
a negative depth returns the empty string with no fetch attempted. -/
def scrape_recursive (web : Web) (url : String) (depth : Int) : String × List String :=
  scrapeNat web (depth + 1).toNat url

/-- Collect a list of optional values, failing when any is missing. -/
def seqOption {α : Type} : List (Option α) → Option (List α)
  | [] => some []
  | none :: _ => none
  | some a :: os =>
    match seqOption os with
    | none => none
    | some as => some (a :: as)

/-- A step-counting variant of the crawler used to state termination:
`fuel` bounds the number of nested calls and is spent one unit per
call, independently of the link graph. -/
def scrapeFuel (web : Web) : Nat → String → Int → Option (String × List String)
  | 0, _, _ => none
  | fuel + 1, url, depth =>
    if depth < 0 then some ("", [])
    else
      match web.fetch url with
      | .error _ => some ("", [url])
      | .ok soup =>
        let content := extract_content_from_soup soup
        if 0 < depth then
          match seqOption ((crawlLinks web url soup).map
            (fun l => scrapeFuel web fuel l (depth - 1))) with
          | none => none
          | some cs => some (assembleNode content url cs)
        else some (content, [url])

/-! ## The query pipeline

`query` (lines 268-305) and its helpers.  The vector store, the
embedding provider and the generation provider are an explicit
environment; Python exceptions become the `PyExc` type and fallible
steps return `Except PyExc`.  The `chat_history` parameter of `query` is
accepted and never read by the source, so it is omitted.  Alongside its
result every pipeline function reports how many times the generation
provider was invoked.
-/

/-- The metadata dict attached to a chunk; its only key is the source
URL. -/
abbrev Metadata := String

/-- Python exceptions arising in the query pipeline.  All constructors
model subclasses of `Exception`. -/
inductive PyExc where
  | fileNotFound (msg : String)
  | typeError (msg : String)
  | runtime (msg : String)
deriving DecidableEq

/-- Whether an exception is a `FileNotFoundError`, as matched by the
first handler of `query` (line 300). -/
def PyExc.isFileNotFound : PyExc → Bool
  | .fileNotFound _ => true
  | _ => false

/-- The environment of the query pipeline: whether the store path
exists, the combined loading, embedding and similarity search step
(lines 281-284) returning documents as content and metadata pairs, and
the generation provider (line 221) returning the texts of its
candidates. -/
structure Env where
  pathExists : Bool
  loadAndSearch : String → Except PyExc (List (String × Metadata))
  provider : String → Except PyExc (List String)

/-- The not-found message of the `FileNotFoundError` handler (line 302). -/
def notFoundMsg : String :=
  "The resource could not be found. Please ensure the data has been correctly uploaded."

/-- The generic message of the catch-all handler (line 305). -/
def genericErrorMsg : String :=
  "Oops, something went wrong while processing your query. Please try again later."

/-- The clarification message returned when keyword filtering leaves no
chunk (line 296). -/
def clarificationMsg : String :=
  "I couldn\x27t find a specific answer. Could you please provide more details or ask a different question?"

/-- The message returned when similarity search returns no results
(line 286). -/
def noSearchHitsMsg : String :=
  "I couldn\x27t find any relevant information."

/-- The message `generate_natural_language_response` returns on an empty
argument (line 238). -/
def emptyRelevantMsg : String :=
  "Sorry, I couldn\x27t find any relevant information."

/-- The prefix of a generated answer (line 240). -/
def answerIntro : String :=
  "Here\x27s what I found based on your question:\n\n"

/-- The instruction template sent to the generation model
(lines 204-216), with the question and the website text substituted. -/
def geminiPrompt (text question : String) : String :=
  "You are a chatbot for an IT company website, tasked with answering user questions based on the provided website text. When responding, please:\n\n" ++
  "1. Directly Address the Query: Use the website text to provide a clear and relevant answer to the user\x27s question.\n" ++
  "2. Be Empathetic and Polite: Offer a response in a natural, friendly manner.\n" ++
  "3. Request More Specificity if Needed: If the query is not fully covered by the website text, gently request more details to provide a precise answer.\n" ++
  "4. Encourage Further Consultation: If the answer is incomplete or if additional information might be needed, suggest that the user consult more resources for comprehensive details.\n" ++
  "5. Avoid Irrelevant Information: Do not provide guesses or information not found in the website text. \n" ++
  "6. always provide the link of the related information not the company website link\n" ++
  "7. add the required information from the images and links \n" ++
  "User Query: " ++ question ++ "\n\nWebsite Text: " ++ text ++ "\n"

/-- `reframe_with_gemini` (lines 186-231): ask the provider for the
prompt and return the first candidate text, or `none` when the provider
raises or returns no candidates. -/
def reframe_with_gemini (env : Env) (text question : String) : Option String :=
  match env.provider (geminiPrompt text question) with
  | .error _ => none
  | .ok [] => none
  | .ok (c :: _) => some c

/-- `generate_natural_language_response` (lines 233-251).  When the
reframing step returns `None`, appending it to the response string
raises a `TypeError`, modelled as the `error` case. -/
def generate_natural_language_response (env : Env)
    (relevant_info : List (String × Metadata)) (question : String) :
    Except PyExc String × Nat :=
  if relevant_info.isEmpty then (.ok emptyRelevantMsg, 0)
  else
    let combined_text := String.intercalate " " (relevant_info.map Prod.fst)
    match reframe_with_gemini env combined_text question with
    | some s => (.ok (answerIntro ++ s).trim, 1)
    | none => (.error (.typeError "can only concatenate str to NoneType"), 1)

/-- `extract_relevant_information` (lines 254-266): tokenize the
lowercased question into word runs and keep the chunks whose lowercased
text contains at least one token as a substring. -/
def extract_relevant_information (question : String) (text_chunks : List String)
    (metadata : List Metadata) : List (String × Metadata) :=
  let keywords := splitWords (pyLower question).data
  (text_chunks.zip metadata).filter
    (fun cm => keywords.any (fun k => pyIn k (pyLower cm.1)))

/-- The body of the `try` block of `query` (lines 272-298). -/
def queryBody (env : Env) (question : String) : Except PyExc String × Nat :=
  if env.pathExists = false then
    (.error (.fileNotFound "FAISS index file not found at path: faiss_index"), 0)
  else
    match env.loadAndSearch question with
    | .error e => (.error e, 0)
    | .ok search_results =>
      if search_results.isEmpty then (.ok noSearchHitsMsg, 0)
      else
        let text_chunks := search_results.map Prod.fst
        let metadata := search_results.map Prod.snd
        let relevant_info := extract_relevant_information question text_chunks metadata
        if relevant_info.isEmpty then (.ok clarificationMsg, 0)
        else generate_natural_language_response env relevant_info question

/-- `query` (lines 268-305): the `try` body guarded by the
`FileNotFoundError` handler and the catch-all `Exception` handler.  An
`error` result would model an exception escaping to the caller. -/
def query (env : Env) (question : String) : Except PyExc String × Nat :=
  match queryBody env question with
  | (.ok a, n) => (.ok a, n)
  | (.error e, n) =>
    if e.isFileNotFound then (.ok notFoundMsg, n) else (.ok genericErrorMsg, n)

/-! ## Helper lemmas -/

lemma pyLowerChar_not_word {c : Char} (h : wordChar c = false) :
    wordChar (pyLowerChar c) = false := by
  have hu : c.isUpper = false := by
    rcases hu : c.isUpper with _ | _
    · rfl
    · exfalso
      rw [wordChar, Char.isAlpha, hu] at h
      simp at h
  rw [pyLowerChar, hu]
  simpa using h

lemma splitWordsAux_eq_nil {l : List Char} (h : ∀ c ∈ l, wordChar c = false) :
    splitWordsAux l [] = [] := by
  induction l with
  | nil => rfl
  | cons c cs ih =>
    rw [splitWordsAux, if_neg, if_pos List.isEmpty_nil]
    · exact ih fun x hx => h x (List.mem_cons_of_mem c hx)
    · simp [h c (List.mem_cons_self c cs)]

lemma splitWords_eq_nil {l : List Char} (h : ∀ c ∈ l, wordChar c = false) :
    splitWords l = [] :=
  splitWordsAux_eq_nil h

lemma extract_relevant_eq_nil_of_no_keywords {question : String}
    (h : splitWords (pyLower question).data = [])
    (text_chunks : List String) (metadata : List Metadata) :
    extract_relevant_information question text_chunks metadata = [] := by
  simp [extract_relevant_information, h]

/-! ## Claim theorems: the query stage -/

/-- C1: for every question string and every environment (hence every
filesystem state), `query` returns an `ok` result, never an escaped
exception; and when no vector store exists at the fixed path, the
returned answer is the not-found message. -/
theorem query_total_and_not_found_on_missing_store (env : Env) (q : String) :
    (∃ a n, query env q = (.ok a, n)) ∧
    (env.pathExists = false → query env q = (.ok notFoundMsg, 0)) := by
  constructor
  · rcases h : queryBody env q with ⟨r, n⟩
    cases r with
    | ok a => exact ⟨a, n, by simp [query, h]⟩
    | error e =>
      rcases hb : e.isFileNotFound with _ | _
      · exact ⟨genericErrorMsg, n, by simp [query, h, hb]⟩
      · exact ⟨notFoundMsg, n, by simp [query, h, hb]⟩
  · intro hp
    simp [query, queryBody, hp, PyExc.isFileNotFound]

/-- Closed witness for C1 on a concrete environment with no store. -/
def envNoStore : Env :=
  { pathExists := false
    loadAndSearch := fun _ => .ok []
    provider := fun _ => .ok [] }

theorem query_total_and_not_found_on_missing_store_witness :
    envNoStore.pathExists = false ∧
    query envNoStore "hello" = (.ok notFoundMsg, 0) :=
  ⟨rfl, (query_total_and_not_found_on_missing_store envNoStore "hello").2 rfl⟩

/-- C2: when the store exists, retrieval succeeds with at least one
chunk, and the keyword filter keeps none of the retrieved chunks,
`query` returns the fixed clarification message and the generation
provider is invoked zero times. -/
theorem query_clarifies_when_filter_empty (env : Env) (q : String)
    (r : List (String × Metadata))
    (hp : env.pathExists = true) (hs : env.loadAndSearch q = .ok r) (hne : r ≠ [])
    (hfilter : extract_relevant_information q (r.map Prod.fst) (r.map Prod.snd) = []) :
    query env q = (.ok clarificationMsg, 0) := by
  obtain ⟨x, xs, rfl⟩ := List.exists_cons_of_ne_nil hne
  simp only [List.map_cons] at hfilter
  simp [query, queryBody, hp, hs, hfilter]

/-- Closed witness for C2: one retrieved chunk sharing no keyword with
the question. -/
def envOneChunk : Env :=
  { pathExists := true
    loadAndSearch := fun _ => .ok [("alpha beta", "http://site/")]
    provider := fun _ => .ok ["generated"] }

theorem query_clarifies_when_filter_empty_witness :
    envOneChunk.pathExists = true ∧
    envOneChunk.loadAndSearch "zzz" = .ok [("alpha beta", "http://site/")] ∧
    extract_relevant_information "zzz" ["alpha beta"] ["http://site/"] = [] ∧
    query envOneChunk "zzz" = (.ok clarificationMsg, 0) :=
  ⟨rfl, rfl, by decide,
    query_clarifies_when_filter_empty envOneChunk "zzz"
      [("alpha beta", "http://site/")] rfl rfl (by simp) (by decide)⟩

/-- C9: when the generation provider raises or returns no candidates the
reframing stage returns `none`; and on any query whose keyword filter
keeps at least one chunk, that `none` makes `query` surface the generic
error message instead of letting the exception escape. -/
theorem reframe_none_surfaces_generic_message (env : Env) :
    (∀ t q, ((∃ e, env.provider (geminiPrompt t q) = .error e) ∨
        env.provider (geminiPrompt t q) = .ok []) →
      reframe_with_gemini env t q = none) ∧
    (∀ q r, env.pathExists = true → env.loadAndSearch q = .ok r → r ≠ [] →
      ∀ rel, rel = extract_relevant_information q (r.map Prod.fst) (r.map Prod.snd) →
      rel ≠ [] →
      reframe_with_gemini env (String.intercalate " " (rel.map Prod.fst)) q = none →
      query env q = (.ok genericErrorMsg, 1)) := by
  constructor
  · intro t q h
    rcases h with ⟨e, he⟩ | he <;> simp [reframe_with_gemini, he]
  · intro q r hp hs hne rel hrel hrelne hrf
    obtain ⟨x, xs, rfl⟩ := List.exists_cons_of_ne_nil hne
    simp only [List.map_cons] at hrel
    have hgen : generate_natural_language_response env rel q =
        (.error (.typeError "can only concatenate str to NoneType"), 1) := by
      obtain ⟨y, ys, hy⟩ := List.exists_cons_of_ne_nil hrelne
      rw [generate_natural_language_response, if_neg (by simp [hy])]
      simp only [hrf]
    simp [query, queryBody, hp, hs, ← hrel, hrelne, hgen, PyExc.isFileNotFound]

/-- Closed witness for C9: a provider that raises, with one retrieved
chunk that survives the keyword filter. -/
def envProviderDown : Env :=
  { pathExists := true
    loadAndSearch := fun _ => .ok [("alpha beta", "http://site/")]
    provider := fun _ => .error (.runtime "503 Service Unavailable") }

theorem reframe_none_surfaces_generic_message_witness :
    reframe_with_gemini envProviderDown "alpha beta" "alpha" = none ∧
    query envProviderDown "alpha" = (.ok genericErrorMsg, 1) :=
  ⟨(reframe_none_surfaces_generic_message envProviderDown).1 "alpha beta" "alpha"
      (Or.inl ⟨.runtime "503 Service Unavailable", rfl⟩),
   (reframe_none_surfaces_generic_message envProviderDown).2 "alpha"
      [("alpha beta", "http://site/")] rfl rfl (by simp)
      [("alpha beta", "http://site/")] (by decide) (by simp) rfl⟩

/-- C10: a question of ASCII characters none of which is a word
character tokenizes to no keywords, so the filter keeps no chunks
whatever their contents; consequently, on any environment where
retrieval succeeds with at least one chunk, `query` returns the fixed
clarification message with the generation provider invoked zero times.
The hypothesis restricts to ASCII questions because `wordChar` is the
ASCII restriction of the tokenizer class: on ASCII characters the two
coincide, while non-ASCII word characters are outside the embedding. -/
theorem wordless_question_clarifies (env : Env) (q : String)
    (hq : ∀ c ∈ q.data, c.toNat < 128 ∧ wordChar c = false) :
    (∀ text_chunks metadata,
      extract_relevant_information q text_chunks metadata = []) ∧
    (∀ r, env.pathExists = true → env.loadAndSearch q = .ok r → r ≠ [] →
      query env q = (.ok clarificationMsg, 0)) := by
  have hkw : splitWords (pyLower q).data = [] := by
    apply splitWords_eq_nil
    intro c hc
    simp only [pyLower, List.mem_map] at hc
    obtain ⟨c0, hc0, rfl⟩ := hc
    exact pyLowerChar_not_word (hq c0 hc0).2
  refine ⟨fun tc md => extract_relevant_eq_nil_of_no_keywords hkw tc md, ?_⟩
  intro r hp hs hne
  exact query_clarifies_when_filter_empty env q r hp hs hne
    (extract_relevant_eq_nil_of_no_keywords hkw _ _)

/-- Closed witness for C10: a question consisting of ASCII punctuation
only. -/
theorem wordless_question_clarifies_witness :
    (∀ c ∈ ("?!" : String).data, c.toNat < 128 ∧ wordChar c = false) ∧
    extract_relevant_information "?!" ["alpha beta"] ["http://site/"] = [] ∧
    query envOneChunk "?!" = (.ok clarificationMsg, 0) :=
  ⟨by decide,
   (wordless_question_clarifies envOneChunk "?!" (by decide)).1 ["alpha beta"] ["http://site/"],
   (wordless_question_clarifies envOneChunk "?!" (by decide)).2
     [("alpha beta", "http://site/")] rfl rfl (by simp)⟩

/-! ## Claim theorems: the crawler -/

lemma scrape_recursive_of_neg (web : Web) (url : String) {depth : Int}
    (h : depth < 0) : scrape_recursive web url depth = ("", []) := by
  have h0 : (depth + 1).toNat = 0 := by omega
  rw [scrape_recursive, h0, scrapeNat]

lemma scrape_recursive_of_fetch_error (web : Web) (url : String) {depth : Int}
    (h : 0 ≤ depth) {e : ReqError} (he : web.fetch url = .error e) :
    scrape_recursive web url depth = ("", [url]) := by
  have h0 : (depth + 1).toNat = depth.toNat + 1 := by omega
  rw [scrape_recursive, h0, scrapeNat, he]

lemma scrape_recursive_zero (web : Web) (url : String) {soup : Soup}
    (hs : web.fetch url = .ok soup) :
    scrape_recursive web url 0 = (extract_content_from_soup soup, [url]) := by
  rw [scrape_recursive, show ((0 : Int) + 1).toNat = 1 from rfl, scrapeNat, hs]
  simp

lemma scrape_recursive_node (web : Web) (url : String) {soup : Soup} {depth : Int}
    (hd : 0 < depth) (hs : web.fetch url = .ok soup) :
    scrape_recursive web url depth =
      assembleNode (extract_content_from_soup soup) url
        ((crawlLinks web url soup).map (fun l => scrape_recursive web l (depth - 1))) := by
  have h0 : (depth + 1).toNat = depth.toNat + 1 := by omega
  have h2 : (depth - 1 + 1).toNat = depth.toNat := by omega
  have h3 : ¬ (depth.toNat = 0) := by omega
  simp only [scrape_recursive, h0, scrapeNat, hs, if_neg h3, h2]

/-- C3: crawling with depth -1 returns the empty string and attempts no
fetch; crawling with depth 0 over a successful fetch returns exactly the
extracted text of that page, fetching only the page itself and recursing
into no link. -/
theorem crawl_depth_neg_one_and_zero (web : Web) (url : String) :
    scrape_recursive web url (-1) = ("", []) ∧
    (∀ soup, web.fetch url = .ok soup →
      scrape_recursive web url 0 = (extract_content_from_soup soup, [url])) :=
  ⟨scrape_recursive_of_neg web url (by norm_num),
   fun _ hs => scrape_recursive_zero web url hs⟩

/-- A one-page network used by the crawler witnesses. -/
def soupEmpty : Soup :=
  { headings := [], paragraphs := ["hello"], listItems := [], anchors := [],
    tables := [], metaDescriptions := [], text := "", imgAlts := [] }

/-- A network whose only live page is `http://a/`. -/
def webOnePage : Web :=
  { fetch := fun u => if u = "http://a/" then .ok soupEmpty else .error "connection refused"
    urljoin := fun _ l => l }

theorem crawl_depth_neg_one_and_zero_witness :
    webOnePage.fetch "http://a/" = .ok soupEmpty ∧
    scrape_recursive webOnePage "http://a/" 0 =
      (extract_content_from_soup soupEmpty, ["http://a/"]) :=
  ⟨rfl, (crawl_depth_neg_one_and_zero webOnePage "http://a/").2 soupEmpty rfl⟩

lemma seqOption_map_some {α β : Type} (l : List α) (f : α → Option β) (g : α → β)
    (h : ∀ x ∈ l, f x = some (g x)) : seqOption (l.map f) = some (l.map g) := by
  induction l with
  | nil => rfl
  | cons x xs ih =>
    simp only [List.map_cons, h x (List.mem_cons_self x xs), seqOption,
      ih fun y hy => h y (List.mem_cons_of_mem x hy)]

/-- C5: for every link graph, every start URL and every depth, a fuel
bound depending only on the depth makes the step-counting crawler reach
the depth-bounded result: termination is guaranteed by the depth bound
alone, independently of the graph, because each recursive call strictly
decreases the depth and negative depth is a base case. -/
theorem crawl_terminates_by_depth_bound (web : Web) :
    ∀ (fuel : Nat) (url : String) (depth : Int), (depth + 1).toNat < fuel →
      scrapeFuel web fuel url depth = some (scrape_recursive web url depth) := by
  intro fuel
  induction fuel with
  | zero => intro url depth h; omega
  | succ fuel ih =>
    intro url depth h
    by_cases hneg : depth < 0
    · rw [scrapeFuel, if_pos hneg, scrape_recursive_of_neg web url hneg]
    · rcases hf : web.fetch url with e | soup
      · rw [scrapeFuel, if_neg hneg]
        simp only [hf]
        rw [scrape_recursive_of_fetch_error web url (by omega) hf]
      · by_cases hpos : 0 < depth
        · have hseq := seqOption_map_some (crawlLinks web url soup)
            (fun l => scrapeFuel web fuel l (depth - 1))
            (fun l => scrape_recursive web l (depth - 1))
            (fun l _ => ih l (depth - 1) (by omega))
          rw [scrapeFuel, if_neg hneg]
          simp only [hf, if_pos hpos, hseq]
          rw [scrape_recursive_node web url hpos hf]
        · have hz : depth = 0 := by omega
          subst hz
          rw [scrapeFuel, if_neg hneg]
          simp only [hf]
          rw [if_neg hpos, scrape_recursive_zero web url hf]

theorem crawl_terminates_by_depth_bound_witness :
    (((2 : Int) + 1).toNat < 5) ∧
    scrapeFuel webOnePage 5 "http://a/" 2 =
      some (scrape_recursive webOnePage "http://a/" 2) :=
  ⟨by norm_num, crawl_terminates_by_depth_bound webOnePage 5 "http://a/" 2 (by norm_num)⟩

/-- C6: at non-negative depth a fetch failure is swallowed: the call
returns the text accumulated so far, which is empty since the fetch is
the first operation, and only logs the attempted URL; and a successful
parent composes the results of its children independently, so a failing
child contributes only an empty text after its delimiter and never
aborts the rest of the crawl. -/
theorem crawl_fetch_failure_swallowed (web : Web) (url : String) (depth : Int)
    (h : 0 ≤ depth) :
    (∀ e, web.fetch url = .error e → scrape_recursive web url depth = ("", [url])) ∧
    (∀ soup, web.fetch url = .ok soup → 0 < depth →
      scrape_recursive web url depth =
        assembleNode (extract_content_from_soup soup) url
          ((crawlLinks web url soup).map
            (fun l => scrape_recursive web l (depth - 1)))) :=
  ⟨fun _ he => scrape_recursive_of_fetch_error web url h he,
   fun _ hs hd => scrape_recursive_node web url hd hs⟩

theorem crawl_fetch_failure_swallowed_witness :
    webOnePage.fetch "http://dead/" = .error "connection refused" ∧
    scrape_recursive webOnePage "http://dead/" 2 = ("", ["http://dead/"]) :=
  ⟨rfl, (crawl_fetch_failure_swallowed webOnePage "http://dead/" 2 (by norm_num)).1
    "connection refused" rfl⟩

lemma mem_dedupAux (a : String) (l : List String) :
    ∀ seen, (a ∈ dedupAux seen l ↔ (a ∈ l ∧ a ∉ seen)) := by
  induction l with
  | nil => intro seen; simp [dedupAux]
  | cons x xs ih =>
    intro seen
    by_cases hx : x ∈ seen
    · rw [dedupAux, if_pos hx, ih seen]
      constructor
      · rintro ⟨h1, h2⟩; exact ⟨List.mem_cons_of_mem x h1, h2⟩
      · rintro ⟨h1, h2⟩
        rcases List.mem_cons.mp h1 with rfl | h1
        · exact absurd hx h2
        · exact ⟨h1, h2⟩
    · rw [dedupAux, if_neg hx]
      simp only [List.mem_cons, ih (x :: seen)]
      constructor
      · rintro (rfl | ⟨h1, h2⟩)
        · exact ⟨Or.inl rfl, hx⟩
        · exact ⟨Or.inr h1, fun hs => h2 (Or.inr hs)⟩
      · rintro ⟨rfl | h1, h2⟩
        · exact Or.inl rfl
        · by_cases hax : a = x
          · exact Or.inl hax
          · exact Or.inr ⟨h1, fun h => h.elim hax h2⟩

lemma nodup_dedupAux (l : List String) : ∀ seen, (dedupAux seen l).Nodup := by
  induction l with
  | nil => intro _; simp [dedupAux]
  | cons x xs ih =>
    intro seen
    by_cases hx : x ∈ seen
    · rw [dedupAux, if_pos hx]; exact ih seen
    · rw [dedupAux, if_neg hx]
      refine List.nodup_cons.mpr ⟨?_, ih (x :: seen)⟩
      intro hmem
      exact ((mem_dedupAux x xs (x :: seen)).1 hmem).2 (List.mem_cons_self x seen)

lemma mem_crawlLinks (web : Web) (url : String) (soup : Soup) (u : String) :
    u ∈ crawlLinks web url soup ↔
      ((∃ a ∈ soup.anchors, web.urljoin url a.href = u) ∧
        pyStartswith u "http" = true ∧ pyStartswith u url = false) := by
  rw [crawlLinks, dedupFirst, mem_dedupAux]
  simp only [List.not_mem_nil, not_false_eq_true, and_true, List.mem_filter,
    List.mem_map, Bool.and_eq_true]
  constructor
  · rintro ⟨⟨a, ha, rfl⟩, h1, h2⟩
    refine ⟨⟨a, ha, rfl⟩, h1, ?_⟩
    simpa using h2
  · rintro ⟨⟨a, ha, rfl⟩, h1, h2⟩
    refine ⟨⟨a, ha, rfl⟩, h1, ?_⟩
    simpa using h2

/-- C4 (amended): at positive depth over a successful fetch, the crawler
recurses, with depth one lower, exactly into the deduplicated resolved
anchor URLs that begin with the string http (a condition admitting some
non-HTTP(S) schemes) and are not string-prefix continuations of the
current URL, appending each child text after the fixed delimiter. -/
theorem crawl_children_characterization (web : Web) (url : String) (soup : Soup)
    (depth : Int) (hd : 0 < depth) (hs : web.fetch url = .ok soup) :
    scrape_recursive web url depth =
      assembleNode (extract_content_from_soup soup) url
        ((crawlLinks web url soup).map (fun l => scrape_recursive web l (depth - 1))) ∧
    (∀ u, u ∈ crawlLinks web url soup ↔
      ((∃ a ∈ soup.anchors, web.urljoin url a.href = u) ∧
        pyStartswith u "http" = true ∧ pyStartswith u url = false)) ∧
    (crawlLinks web url soup).Nodup :=
  ⟨scrape_recursive_node web url hd hs,
   mem_crawlLinks web url soup,
   nodup_dedupAux _ []⟩

/-- Whether a URL is an HTTP(S) URL.  Modelled from the spec: the claim
excludes, in its words, every non-HTTP(S) URL. -/
def isHttpS (u : String) : Bool :=
  pyStartswith u "http://" || pyStartswith u "https://"

/-- A page whose single anchor carries an absolute URL of the scheme
httpx, which resolution returns unchanged. -/
def cexSoup : Soup :=
  { headings := [], paragraphs := [], listItems := [],
    anchors := [{ text := "", imgAlts := [], hasIcon := false, href := "httpx://evil" }],
    tables := [], metaDescriptions := [], text := "", imgAlts := [] }

/-- The network of the counterexample: resolution returns absolute
links unchanged, and fetching the httpx URL raises. -/
def cexWeb : Web :=
  { fetch := fun u =>
      if u = "http://a/" then .ok cexSoup else .error "InvalidSchema"
    urljoin := fun _ l => l }

/-- Counterexample to C4 as stated: crawling `http://a/` at depth 1
attempts a fetch of `httpx://evil`, a URL that is not an HTTP(S) URL, so
the crawler does not exclude every non-HTTP(S) URL. -/
theorem crawl_fetches_non_https_url :
    isHttpS "httpx://evil" = false ∧
    "httpx://evil" ∈ (scrape_recursive cexWeb "http://a/" 1).2 := by
  constructor
  · decide
  · rw [scrape_recursive]
    decide

theorem crawl_children_characterization_witness :
    cexWeb.fetch "http://a/" = .ok cexSoup ∧
    scrape_recursive cexWeb "http://a/" 1 =
      assembleNode (extract_content_from_soup cexSoup) "http://a/"
        ((crawlLinks cexWeb "http://a/" cexSoup).map
          (fun l => scrape_recursive cexWeb l 0)) :=
  ⟨rfl, by
    have h := (crawl_children_characterization cexWeb "http://a/" cexSoup 1
      (by norm_num) rfl).1
    simpa using h⟩

/-! ## Claim theorems: the extractor -/

/-- The three sections printed before the links section. -/
def sectionsBeforeLinks (soup : Soup) : String :=
  "Headings:\n" ++ String.intercalate "\n" soup.headings ++ "\n\n" ++
  "Paragraphs:\n" ++ String.intercalate "\n" soup.paragraphs ++ "\n\n" ++
  "Lists:\n" ++ String.intercalate "\n" soup.listItems ++ "\n\n"

/-- The links section of the extractor output. -/
def linksSection (soup : Soup) : String :=
  "Links:\n" ++ String.intercalate "\n" (soup.anchors.map linkLine) ++ "\n\n"

/-- The two sections printed between the links section and the contact
section. -/
def sectionsBetween (soup : Soup) : String :=
  "Tables:\n" ++
    String.intercalate "\n" (soup.tables.enum.map (fun p => tableBlock p.1 p.2)) ++
    "\n\n" ++
  "Meta Descriptions:\n" ++ String.intercalate "\n" soup.metaDescriptions ++ "\n\n"

/-- The contact info section of the extractor output. -/
def contactSection (soup : Soup) : String :=
  "Contact Info:\n" ++
    String.intercalate "\n" (pyFindEmails soup.text ++ pyFindPhones soup.text) ++ "\n\n"

/-- The final image alt section of the extractor output. -/
def imageAltSection (soup : Soup) : String :=
  "Image Alt Text:\n" ++ String.intercalate "\n" (imageAltEntries soup.imgAlts) ++ "\n"

lemma extract_decomposition (soup : Soup) :
    extract_content_from_soup soup =
      sectionsBeforeLinks soup ++ linksSection soup ++ sectionsBetween soup ++
        contactSection soup ++ imageAltSection soup := by
  simp only [extract_content_from_soup, sectionsBeforeLinks, linksSection,
    sectionsBetween, contactSection, imageAltSection, String.append_assoc]

/-- C7: the extractor output carries a links section whose lines are
exactly one line per anchor, and the line of every anchor has the form
described by the label cascade: own text, else comma-joined image alt
texts with a placeholder for missing alts, else the icon marker, else
empty rendered as the no-text filler. -/
theorem links_section_lines (soup : Soup) (a : Anchor) (ha : a ∈ soup.anchors) :
    (∃ pre post, extract_content_from_soup soup =
      pre ++ ("Links:\n" ++ String.intercalate "\n" (soup.anchors.map linkLine) ++
        "\n\n") ++ post) ∧
    linkLine a ∈ soup.anchors.map linkLine ∧
    linkLine a =
      (let label :=
        if a.text ≠ "" then a.text
        else if a.imgAlts ≠ [] then
          String.intercalate ", "
            (a.imgAlts.map (fun alt => alt.getD "Image without alt text"))
        else if a.hasIcon then "Icon link"
        else ""
      "Link text: " ++ (if label = "" then "No text" else label) ++
        ", URL: " ++ a.href) := by
  refine ⟨⟨sectionsBeforeLinks soup,
    sectionsBetween soup ++ contactSection soup ++ imageAltSection soup, ?_⟩,
    List.mem_map_of_mem linkLine ha, rfl⟩
  rw [extract_decomposition soup]
  simp only [linksSection, String.append_assoc]

/-- A page with a single anchor holding two images, one without an alt
attribute. -/
def anchorImgs : Anchor :=
  { text := "", imgAlts := [none, some "logo"], hasIcon := false, href := "/about" }

def soupLinks : Soup :=
  { headings := [], paragraphs := [], listItems := [], anchors := [anchorImgs],
    tables := [], metaDescriptions := [], text := "", imgAlts := [] }

theorem links_section_lines_witness :
    anchorImgs ∈ soupLinks.anchors ∧
    linkLine anchorImgs ∈ soupLinks.anchors.map linkLine ∧
    linkLine anchorImgs = "Link text: Image without alt text, logo, URL: /about" :=
  ⟨by decide,
   (links_section_lines soupLinks anchorImgs (by decide)).2.1,
   by decide⟩

lemma pyFindall_infix (matchAt : List Char → Nat → Option Nat) (t : String) :
    ∀ m ∈ pyFindall matchAt t, m.data <:+: t.data := by
  intro m hm
  rw [pyFindall] at hm
  rcases List.mem_map.mp hm with ⟨ie, _, rfl⟩
  exact ((List.take_prefix _ _).isInfix).trans ((List.drop_suffix _ _).isInfix)

/-- C8: the extractor output carries a contact info section that is the
newline-join of the email pattern matches followed by the phone pattern
matches, both scanned over the full visible page text in match order;
every match is a substring of that text. -/
theorem contact_section_structure (soup : Soup) :
    (∃ pre post, extract_content_from_soup soup =
      pre ++ ("Contact Info:\n" ++
        String.intercalate "\n" (pyFindEmails soup.text ++ pyFindPhones soup.text) ++
        "\n\n") ++ post) ∧
    (∀ m ∈ pyFindEmails soup.text, m.data <:+: soup.text.data) ∧
    (∀ m ∈ pyFindPhones soup.text, m.data <:+: soup.text.data) := by
  refine ⟨⟨sectionsBeforeLinks soup ++ linksSection soup ++ sectionsBetween soup,
    imageAltSection soup, ?_⟩,
    pyFindall_infix matchEmailAt soup.text,
    pyFindall_infix matchPhoneAt soup.text⟩
  rw [extract_decomposition soup]
  simp only [contactSection, String.append_assoc]

/-- A page whose visible text holds one email and one phone number. -/
def soupContact : Soup :=
  { headings := [], paragraphs := [], listItems := [], anchors := [],
    tables := [], metaDescriptions := [], text := "a@b.co 123456789012",
    imgAlts := [] }

theorem contact_section_structure_witness :
    ("a@b.co" ∈ pyFindEmails soupContact.text) ∧
    ("a@b.co".data <:+: soupContact.text.data) ∧
    ("123456789012" ∈ pyFindPhones soupContact.text) ∧
    ("123456789012".data <:+: soupContact.text.data) :=
  ⟨by decide,
   (contact_section_structure soupContact).2.1 "a@b.co" (by decide),
   by decide,
   (contact_section_structure soupContact).2.2 "123456789012" (by decide)⟩
